import Mathlib

/-!
Verification of the environmental-financial valuation engines
(`flood_engine.py`, `solar_engine.py`, `carbon_engine.py`, `aggregator.py`)
of the land-analysis backend.

Modelling conventions:
* Python floats are modelled as exact rationals (`ℚ`); the flood risk score,
  which applies `math.exp`, is modelled over `ℝ`.
* `round(x, d)` is modelled as `pyRound d x = round (x * 10^d) / 10^d` using
  Mathlib's round-half-up `round`; Python's round-half-to-even differs only at
  exact ties, which none of the properties below touch.
* The `async` engine entry points are pure functions of their inputs once the
  externally fetched data (rainfall, GHI, temperature, FX rate) is fixed; the
  fetched values appear as explicit parameters.
* Python dict results are modelled as structures; a key that is absent from
  the returned dict is an `Option` field holding `none`.
* A `ZeroDivisionError` raised by an engine is modelled by returning `none`
  from the whole call (`Option` result).
-/

/-- `round(x, d)` of Python (round to `d` decimal digits), modelled with
Mathlib's `round` (half-up; Python uses half-to-even, identical off ties). -/
def pyRound {α : Type} [LinearOrderedField α] [FloorRing α] (d : ℕ) (x : α) : α :=
  (round (x * (10 : α) ^ d) : ℤ) / (10 : α) ^ d

/-- The six land-cover categories shared by all engines
(keys of `CN_TABLE`, `SOLAR_ELIGIBLE_FRACTION`, `CARBON_STOCKS_TC_HA`). -/
inductive Cat : Type
  | forest
  | wetland
  | agriculture
  | urban
  | open_land
  | water
deriving DecidableEq, Repr

/-- Listing of all categories, to model iteration over the Python dict keys. -/
def Cat.all : List Cat :=
  [Cat.forest, Cat.wetland, Cat.agriculture, Cat.urban, Cat.open_land, Cat.water]

/-- A land-cover distribution: a total map category → weight.  Python code
reads it with `distribution.get(cat, 0.0)`, so a missing key is a `0` value. -/
def Distribution : Type := Cat → ℚ

/-! ## flood_engine.py -/

/-- `CN_TABLE` (SCS Curve Numbers, NRCS TR-55 AMC-II). -/
def CN_TABLE : Cat → ℚ
  | Cat.forest      => 55
  | Cat.wetland     => 78
  | Cat.agriculture => 75
  | Cat.urban       => 92
  | Cat.open_land   => 68
  | Cat.water       => 98

/-- `STORMWATER_COST_INR_M3 = 150.0`. -/
def STORMWATER_COST_INR_M3 : ℚ := 150

/-- `RETURN_PERIOD_FACTORS["25yr"] = 1.60`. -/
def RETURN_PERIOD_FACTOR_25yr : ℚ := 8/5

/-- `get_amc_condition`: AMC class I/II/III from 5-day antecedent rainfall. -/
def get_amc_condition (amc_5day : ℚ) : ℕ :=
  if amc_5day < 36 then 1
  else if amc_5day > 53 then 3
  else 2

/-- `adjust_cn`: AMC and slope adjustment of a Curve Number. -/
def adjust_cn (base_cn : ℚ) (amc : ℕ) (slope_pct : ℚ) : ℚ :=
  let cn :=
    if amc = 1 then base_cn / (2281/1000 - 1281/100000 * base_cn)
    else if amc = 3 then base_cn / (427/1000 + 573/100000 * base_cn)
    else base_cn
  let cn :=
    if slope_pct > 5 then cn + min 5 ((slope_pct - 5) * 3/10)
    else cn
  min 99 (max 10 cn)

/-- `calculate_runoff_mm`: standard SCS runoff depth formula. -/
def calculate_runoff_mm (P_mm : ℚ) (CN : ℚ) : ℚ :=
  if CN ≤ 0 ∨ CN ≥ 100 ∨ P_mm ≤ 0 then 0
  else
    let S := 25400 / CN - 254
    let Ia := 2/10 * S
    if P_mm ≤ Ia then 0
    else (P_mm - Ia) ^ 2 / (P_mm + 8/10 * S)

/-- `base_cn` of `run_flood_analysis` step 3: distribution-weighted CN.
The Python generator iterates over `CN_TABLE`'s keys, so every key hits the
table and the `70.0` default of `CN_TABLE.get` is dead. -/
def flood_base_cn (dist : Distribution) : ℚ :=
  (Cat.all.map (fun c => dist c * CN_TABLE c)).sum

/-- `rp_depths["25yr"]`: design storm (15 % of annual P) times the 25-yr
return-period factor. -/
def flood_p25 (annual_p : ℚ) : ℚ :=
  annual_p * 15/100 * RETURN_PERIOD_FACTOR_25yr

/-- `cn_current` of `run_flood_analysis`. -/
def flood_cn_current (dist : Distribution) (amc_5day slope : ℚ) : ℚ :=
  adjust_cn (flood_base_cn dist) (get_amc_condition amc_5day) slope

/-- `cn_developed` of `run_flood_analysis` (typical urban CN 92). -/
def flood_cn_developed (amc_5day slope : ℚ) : ℚ :=
  adjust_cn 92 (get_amc_condition amc_5day) slope

/-- `q_curr`: 25-yr-storm runoff under the current land cover. -/
def flood_q_curr (annual_p : ℚ) (dist : Distribution) (amc_5day slope : ℚ) : ℚ :=
  calculate_runoff_mm (flood_p25 annual_p) (flood_cn_current dist amc_5day slope)

/-- `q_dev`: 25-yr-storm runoff under developed cover. -/
def flood_q_dev (annual_p amc_5day slope : ℚ) : ℚ :=
  calculate_runoff_mm (flood_p25 annual_p) (flood_cn_developed amc_5day slope)

/-- `run_flood_analysis` steps 2–5 (deterministic part, rainfall fixed):
the 25-yr-storm runoff delta `delta_q = max(0.0, q_dev - q_curr)`. -/
def flood_delta_q (annual_p : ℚ) (dist : Distribution) (amc_5day slope : ℚ) : ℚ :=
  max 0 (flood_q_dev annual_p amc_5day slope - flood_q_curr annual_p dist amc_5day slope)

/-- The `delta_runoff_mm` field of the `run_flood_analysis` result. -/
def delta_runoff_mm (annual_p : ℚ) (dist : Distribution) (amc_5day slope : ℚ) : ℚ :=
  pyRound 2 (flood_delta_q annual_p dist amc_5day slope)

/-! ### Flood risk score (`run_flood_analysis` step 6, over `ℝ` for `math.exp`) -/

/-- `elev_risk = min(1.0, math.exp(-0.05 * elevation))`. -/
noncomputable def elev_risk (elevation : ℝ) : ℝ :=
  min 1 (Real.exp (-(5/100) * elevation))

/-- `rain_risk = min(1.0, annual_p / 3000.0)`. -/
noncomputable def rain_risk (annual_p : ℝ) : ℝ := min 1 (annual_p / 3000)

/-- `slope_risk = min(1.0, slope / 30.0)`. -/
noncomputable def slope_risk (slope : ℝ) : ℝ := min 1 (slope / 30)

/-- `composite_risk = round(0.4*elev + 0.4*rain + 0.2*slope, 4)`. -/
noncomputable def composite_risk (elevation annual_p slope : ℝ) : ℝ :=
  pyRound 4 (4/10 * elev_risk elevation + 4/10 * rain_risk annual_p
    + 2/10 * slope_risk slope)

/-- The `flood_risk_score` field: `min(1.0, composite_risk)`. -/
noncomputable def flood_risk_score (elevation annual_p slope : ℝ) : ℝ :=
  min 1 (composite_risk elevation annual_p slope)

/-- The `risk_label` field:
`"High" if composite_risk > 0.7 else "Moderate" if composite_risk > 0.35 else "Low"`. -/
noncomputable def risk_label (elevation annual_p slope : ℝ) : String :=
  if composite_risk elevation annual_p slope > 7/10 then "High"
  else if composite_risk elevation annual_p slope > 35/100 then "Moderate"
  else "Low"

/-! ## solar_engine.py -/

/-- Panel and economic constants of `solar_engine.py`. -/
def PANEL_AREA_M2 : ℚ := 8/5
def PANEL_EFFICIENCY : ℚ := 18/100
def SYSTEM_LOSS_FACTOR : ℚ := 15/100
def PANEL_DEGRADATION : ℚ := 5/1000
def PANEL_LIFETIME_YEARS : ℕ := 25
def TEMP_COEFF : ℚ := -(4/1000)
def NOCT_OFFSET : ℚ := 25
def CAPEX_PER_W_INR : ℚ := 55
def GST_RATE : ℚ := 5/100
def OPEX_RATE : ℚ := 1/100
def OPEX_ESCALATION : ℚ := 25/1000
def GRID_TARIFF_INR_KWH : ℚ := 475/100
def DISCOUNT_RATE : ℚ := 9/100

/-- `SOLAR_ELIGIBLE_FRACTION`. -/
def SOLAR_ELIGIBLE_FRACTION : Cat → ℚ
  | Cat.forest      => 0
  | Cat.wetland     => 0
  | Cat.agriculture => 40/100
  | Cat.urban       => 25/100
  | Cat.open_land   => 1
  | Cat.water       => 5/100

/-- One Newton-Raphson step state for `calculate_irr`: the loop body, where
`none` signals early return from the loop. -/
def irr_step (cash_flows : List ℚ) (guess : ℚ) : ℚ ⊕ ℚ :=
  let npv := ((cash_flows.enum.map (fun p => p.2 / (1 + guess) ^ p.1)).sum)
  let d_npv := ((cash_flows.enum.map
    (fun p => -(p.1 : ℚ) * p.2 / (1 + guess) ^ (p.1 + 1))).sum)
  if |d_npv| < 1/1000000 then Sum.inl guess
  else
    let new_guess := guess - npv / d_npv
    if |new_guess - guess| < 1/10000000 then Sum.inl new_guess
    else Sum.inr new_guess

/-- The 100-iteration loop of `calculate_irr`. -/
def irr_loop (cash_flows : List ℚ) : ℕ → ℚ → ℚ
  | 0, guess => guess
  | Nat.succ k, guess =>
      match irr_step cash_flows guess with
      | Sum.inl g => g
      | Sum.inr g => irr_loop cash_flows k g

/-- `calculate_irr`: Newton-Raphson IRR with default guess 0.1, 100 iterations. -/
def calculate_irr (cash_flows : List ℚ) : ℚ :=
  irr_loop cash_flows 100 (1/10)

/-- The result of `pv_npv_metrics`. -/
structure PvMetrics where
  npv : ℚ
  irr : ℚ
  lcoe : ℚ
deriving DecidableEq, Repr

/-- `pv_npv_metrics`: discounted cash-flow NPV, IRR and LCOE over the
25-year lifetime with degradation and opex escalation. -/
def pv_npv_metrics (annual_kwh_year1 capex_inr opex_annual_inr : ℚ) : PvMetrics :=
  let years := (List.range PANEL_LIFETIME_YEARS).map (· + 1)
  let gen := fun t : ℕ => annual_kwh_year1 * (1 - PANEL_DEGRADATION) ^ (t - 1)
  let opex := fun t : ℕ => opex_annual_inr * (1 + OPEX_ESCALATION) ^ (t - 1)
  let net_cf := fun t : ℕ => gen t * GRID_TARIFF_INR_KWH - opex t
  let cash_flows := -capex_inr :: years.map net_cf
  let npv := -capex_inr + (years.map (fun t => net_cf t / (1 + DISCOUNT_RATE) ^ t)).sum
  let total_disc_energy := (years.map (fun t => gen t / (1 + DISCOUNT_RATE) ^ t)).sum
  let total_disc_costs :=
    capex_inr + (years.map (fun t => opex t / (1 + DISCOUNT_RATE) ^ t)).sum
  let irr := calculate_irr cash_flows
  let lcoe := if total_disc_energy > 0 then total_disc_costs / total_disc_energy else 0
  { npv := pyRound 2 npv, irr := pyRound 2 (irr * 100), lcoe := pyRound 2 lcoe }

/-- The dict returned by `run_solar_analysis`.  Fields absent from the
degenerate (`panel_count == 0`) return are `Option`s holding `none` there. -/
structure SolarResult where
  avg_daily_ghi_kwh_m2 : ℚ
  avg_temp_c : Option ℚ
  usable_area_m2 : Option ℚ
  panel_count : ℤ
  installed_capacity_kwp : Option ℚ
  annual_generation_kwh : Option ℚ
  annual_revenue_inr : Option ℚ
  total_investment_inr : Option ℚ
  annual_opex_inr : Option ℚ
  payback_years : Option ℚ
  npv_25yr_inr : ℚ
  irr_pct : Option ℚ
  lcoe_inr_kwh : Option ℚ
  temp_derate_factor : Option ℚ
deriving DecidableEq, Repr

/-- `usable_fraction` of `run_solar_analysis` (iterates the
`SOLAR_ELIGIBLE_FRACTION` table, reading the distribution with default 0). -/
def solar_usable_fraction (dist : Distribution) : ℚ :=
  (Cat.all.map (fun c => dist c * SOLAR_ELIGIBLE_FRACTION c)).sum

/-- `panel_count = math.floor(usable_area_m2 * 0.65 / PANEL_AREA_M2)`. -/
def solar_panel_count (area_m2 : ℚ) (dist : Distribution) : ℤ :=
  ⌊area_m2 * solar_usable_fraction dist * (65/100) / PANEL_AREA_M2⌋

/-- `capacity_kwp = panel_count * PANEL_AREA_M2 * PANEL_EFFICIENCY`. -/
def solar_capacity_kwp (area_m2 : ℚ) (dist : Distribution) : ℚ :=
  (solar_panel_count area_m2 dist : ℚ) * PANEL_AREA_M2 * PANEL_EFFICIENCY

/-- `temp_derate_factor = max(0.5, 1.0 + TEMP_COEFF*(temp + NOCT_OFFSET - 25))`. -/
def solar_temp_derate (temp : ℚ) : ℚ :=
  max (1/2) (1 + TEMP_COEFF * (temp + NOCT_OFFSET - 25))

/-- `annual_gen_kwh = capacity * GHI * 365 * (1 - losses) * temp_derate`. -/
def solar_annual_gen_kwh (ghi temp area_m2 : ℚ) (dist : Distribution) : ℚ :=
  solar_capacity_kwp area_m2 dist * ghi * 365 * (1 - SYSTEM_LOSS_FACTOR)
    * solar_temp_derate temp

/-- `total_capex = capacity * 1000 * CAPEX_PER_W_INR * (1 + GST_RATE)`. -/
def solar_total_capex (area_m2 : ℚ) (dist : Distribution) : ℚ :=
  solar_capacity_kwp area_m2 dist * 1000 * CAPEX_PER_W_INR * (1 + GST_RATE)

/-- `opex_y1 = total_capex * OPEX_RATE`. -/
def solar_opex_y1 (area_m2 : ℚ) (dist : Distribution) : ℚ :=
  solar_total_capex area_m2 dist * OPEX_RATE

/-- The year-1 net cash flow `annual_gen_kwh * GRID_TARIFF - opex_y1`: the
denominator of the `payback_years` computation. -/
def solar_year1_cash (ghi temp area_m2 : ℚ) (dist : Distribution) : ℚ :=
  solar_annual_gen_kwh ghi temp area_m2 dist * GRID_TARIFF_INR_KWH
    - solar_opex_y1 area_m2 dist

/-- `run_solar_analysis`, deterministic part: the fetched weather expectation
(`ghi`, `temp`) is passed in.  Returns `none` when the Python code would raise
`ZeroDivisionError` (payback with zero year-1 net cash flow). -/
def run_solar_analysis (ghi temp area_m2 : ℚ) (dist : Distribution) :
    Option SolarResult :=
  let usable_area_m2 := area_m2 * solar_usable_fraction dist
  let panel_count := solar_panel_count area_m2 dist
  if panel_count = 0 then
    some
      { avg_daily_ghi_kwh_m2 := ghi
        avg_temp_c := none
        usable_area_m2 := none
        panel_count := 0
        installed_capacity_kwp := none
        annual_generation_kwh := none
        annual_revenue_inr := none
        total_investment_inr := none
        annual_opex_inr := none
        payback_years := none
        npv_25yr_inr := 0
        irr_pct := none
        lcoe_inr_kwh := none
        temp_derate_factor := none }
  else
    let capacity_kwp := solar_capacity_kwp area_m2 dist
    let temp_derate_factor := solar_temp_derate temp
    let annual_gen_kwh := solar_annual_gen_kwh ghi temp area_m2 dist
    let total_capex := solar_total_capex area_m2 dist
    let opex_y1 := solar_opex_y1 area_m2 dist
    let metrics := pv_npv_metrics annual_gen_kwh total_capex opex_y1
    let cash_denom := solar_year1_cash ghi temp area_m2 dist
    if cash_denom = 0 then none   -- Python: ZeroDivisionError
    else
      some
        { avg_daily_ghi_kwh_m2 := ghi
          avg_temp_c := some temp
          usable_area_m2 := some (pyRound 2 usable_area_m2)
          panel_count := panel_count
          installed_capacity_kwp := some (pyRound 2 capacity_kwp)
          annual_generation_kwh := some (pyRound 2 annual_gen_kwh)
          annual_revenue_inr := some (pyRound 2 (annual_gen_kwh * GRID_TARIFF_INR_KWH))
          total_investment_inr := some (pyRound 2 total_capex)
          annual_opex_inr := some (pyRound 2 opex_y1)
          payback_years := some (pyRound 1 (total_capex / cash_denom))
          npv_25yr_inr := metrics.npv
          irr_pct := some metrics.irr
          lcoe_inr_kwh := some metrics.lcoe
          temp_derate_factor := some (pyRound 3 temp_derate_factor) }

/-! ## carbon_engine.py -/

/-- `CARBON_STOCKS_TC_HA` (IPCC Tier 1 default carbon stocks, tC/ha). -/
def CARBON_STOCKS_TC_HA : Cat → ℚ
  | Cat.forest      => 150
  | Cat.wetland     => 250
  | Cat.agriculture => 20
  | Cat.urban       => 8
  | Cat.open_land   => 25
  | Cat.water       => 2

/-- `CARBON_FLUX_TC_HA_YR` (annual net sequestration flux, tC/ha/yr). -/
def CARBON_FLUX_TC_HA_YR : Cat → ℚ
  | Cat.forest      => 6
  | Cat.wetland     => 35/10
  | Cat.agriculture => 25/100
  | Cat.urban       => 15/100
  | Cat.open_land   => 6/10
  | Cat.water       => 1/10

/-- `C_TO_CO2 = 44.0 / 12.0`. -/
def C_TO_CO2 : ℚ := 44/12

/-- `HA_PER_M2 = 1.0 / 10_000`. -/
def HA_PER_M2 : ℚ := 1/10000

/-- `npv_annuity` of `carbon_engine.py`: PV of a level annual cash flow. -/
def npv_annuity (annual_value : ℚ) (years : ℤ) (rate : ℚ) : ℚ :=
  if annual_value ≤ 0 ∨ years ≤ 0 then 0
  else if rate = 0 then annual_value * years
  else annual_value * (1 - (1 + rate) ^ (-years)) / rate

/-- The keys of `CARBON_STOCKS_TC_HA` as Python strings: maps a raw
distribution key to its category, `none` for an unknown category. -/
def knownCat : String → Option Cat
  | "forest"      => some Cat.forest
  | "wetland"     => some Cat.wetland
  | "agriculture" => some Cat.agriculture
  | "urban"       => some Cat.urban
  | "open_land"   => some Cat.open_land
  | "water"       => some Cat.water
  | _             => none

/-- `math.isclose(dist_sum, 1.0, abs_tol=0.01)` (default `rel_tol = 1e-9`):
`|a-b| <= max(rel_tol * max(|a|,|b|), abs_tol)`. -/
def isclose_one (s : ℚ) : Prop :=
  |s - 1| ≤ max (1/1000000000 * max |s| 1) (1/100)

instance : DecidablePred isclose_one := fun s => by
  unfold isclose_one; infer_instance

/-- A raw distribution as received by `run_carbon_analysis`: a Python dict,
i.e. a finite association list with string keys. -/
def RawDist : Type := List (String × ℚ)

/-- `run_carbon_analysis` step 2 on the area: `if area_m2 <= 0: area_m2 = 0.1`. -/
def carbon_validated_area (area_m2 : ℚ) : ℚ :=
  if area_m2 ≤ 0 then 1/10 else area_m2

/-- `run_carbon_analysis` step 2 on the distribution: renormalize when the
weights do not sum to ~1, drop unknown categories, fall back to
`{"open_land": 1.0}` when the sum is non-positive or nothing is left. -/
def carbon_clean_distribution (dist : RawDist) : List (Cat × ℚ) :=
  let dist_sum := (dist.map (fun kv => kv.2)).sum
  let dist2 : RawDist :=
    if isclose_one dist_sum then dist
    else if dist_sum > 0 then dist.map (fun kv => (kv.1, kv.2 / dist_sum))
    else [("open_land", 1)]
  let clean := dist2.filterMap (fun kv => (knownCat kv.1).map (fun c => (c, kv.2)))
  if clean = [] then [(Cat.open_land, 1)] else clean

/-- `run_carbon_analysis` step 5: total stored carbon (tC) after validation. -/
def carbon_total_stored_c (area_m2 : ℚ) (dist : RawDist) : ℚ :=
  let area_ha := carbon_validated_area area_m2 * HA_PER_M2
  ((carbon_clean_distribution dist).map
    (fun cw => area_ha * cw.2 * CARBON_STOCKS_TC_HA cw.1)).sum

/-- `run_carbon_analysis` step 5: total annual sequestration flux (tC/yr). -/
def carbon_total_annual_flux (area_m2 : ℚ) (dist : RawDist) : ℚ :=
  let area_ha := carbon_validated_area area_m2 * HA_PER_M2
  ((carbon_clean_distribution dist).map
    (fun cw => area_ha * cw.2 * CARBON_FLUX_TC_HA_YR cw.1)).sum

/-- The `stored_co2_tons` field of the `run_carbon_analysis` result. -/
def stored_co2_tons (area_m2 : ℚ) (dist : RawDist) : ℚ :=
  pyRound 4 (carbon_total_stored_c area_m2 dist * C_TO_CO2)

/-- The `annual_sequestration_co2_tons` field of the result. -/
def annual_sequestration_co2_tons (area_m2 : ℚ) (dist : RawDist) : ℚ :=
  pyRound 4 (carbon_total_annual_flux area_m2 dist * C_TO_CO2)

/-! ## aggregator.py -/

/-- The development intents recognized by `aggregator.py`'s cost tables.
`aggregate_analysis` lower-cases the request string and maps anything not in
the tables to `mixed` before this point. -/
inductive Intent : Type
  | housing
  | industry
  | solar
  | agriculture
  | preserve
  | mixed
deriving DecidableEq, Repr

/-- Discount rates of `aggregator.py`. -/
def INFRA_DR : ℚ := 9/100
def ECO_DR : ℚ := 6/100

/-- `LAND_COST_INR_M2` (₹/m²). -/
def LAND_COST_INR_M2 : Intent → ℚ
  | Intent.housing     => 2500
  | Intent.industry    => 1800
  | Intent.solar       => 600
  | Intent.agriculture => 400
  | Intent.preserve    => 200
  | Intent.mixed       => 2000

/-- `CONSTRUCTION_COST_INR_M2` (₹/m² built-up). -/
def CONSTRUCTION_COST_INR_M2 : Intent → ℚ
  | Intent.housing     => 25000
  | Intent.industry    => 18000
  | Intent.solar       => 0
  | Intent.agriculture => 500
  | Intent.preserve    => 200
  | Intent.mixed       => 20000

/-- `FSI` (floor area ratio). -/
def FSI : Intent → ℚ
  | Intent.housing     => 15/10
  | Intent.industry    => 1
  | Intent.solar       => 0
  | Intent.agriculture => 5/100
  | Intent.preserve    => 1/100
  | Intent.mixed       => 2

/-- `SALE_PRICE_INR_M2` (₹/m² built-up). -/
def SALE_PRICE_INR_M2 : Intent → ℚ
  | Intent.housing     => 55000
  | Intent.industry    => 30000
  | Intent.solar       => 0
  | Intent.agriculture => 2000
  | Intent.preserve    => 1000
  | Intent.mixed       => 45000

/-- `INFRA_OVERHEADS` (fraction of construction cost). -/
def INFRA_OVERHEADS : Intent → ℚ
  | Intent.housing     => 20/100
  | Intent.industry    => 25/100
  | Intent.solar       => 10/100
  | Intent.agriculture => 8/100
  | Intent.preserve    => 5/100
  | Intent.mixed       => 22/100

/-- `DRAINAGE_COST_INR_M3_RUNOFF = 120.0`. -/
def DRAINAGE_COST_INR_M3_RUNOFF : ℚ := 120

/-- `_npv_annuity` of `aggregator.py` (same body as the carbon engine's
`npv_annuity`). -/
def agg_npv_annuity (annual_value : ℚ) (years : ℤ) (rate : ℚ) : ℚ :=
  if annual_value ≤ 0 ∨ years ≤ 0 then 0
  else if rate = 0 then annual_value * years
  else annual_value * (1 - (1 + rate) ^ (-years)) / rate

/-- The dict returned by `_development_cost_breakdown`. -/
structure DevCostBreakdown where
  land_acquisition_cost_inr : ℚ
  built_up_area_m2 : ℚ
  construction_cost_inr : ℚ
  infrastructure_cost_inr : ℚ
  flood_mitigation_cost_inr : ℚ
  total_project_cost_inr : ℚ
  gross_revenue_inr : ℚ
  net_profit_inr : ℚ
  profit_margin_pct : ℚ
  roi_pct : ℚ
deriving DecidableEq, Repr

/-- `_development_cost_breakdown`: phase-wise development cost model. -/
def development_cost_breakdown (area_m2 : ℚ) (intent : Intent)
    (flood_runoff_delta_mm flood_risk_score : ℚ) : DevCostBreakdown :=
  let land_cost := area_m2 * LAND_COST_INR_M2 intent
  let built_up_m2 := area_m2 * FSI intent
  let construction := built_up_m2 * CONSTRUCTION_COST_INR_M2 intent
  let infra := construction * INFRA_OVERHEADS intent
  let flood_mit_cost :=
    if flood_risk_score > 35/100 then
      (flood_runoff_delta_mm / 1000) * area_m2 * DRAINAGE_COST_INR_M3_RUNOFF
    else 0
  let total_cost := land_cost + construction + infra + flood_mit_cost
  let gross_revenue := built_up_m2 * SALE_PRICE_INR_M2 intent
  let net_profit := gross_revenue - total_cost
  let profit_margin_pct :=
    if gross_revenue > 0 then net_profit / gross_revenue * 100 else 0
  let roi_pct := if total_cost > 0 then net_profit / total_cost * 100 else 0
  { land_acquisition_cost_inr := pyRound 2 land_cost
    built_up_area_m2 := pyRound 2 built_up_m2
    construction_cost_inr := pyRound 2 construction
    infrastructure_cost_inr := pyRound 2 infra
    flood_mitigation_cost_inr := pyRound 2 flood_mit_cost
    total_project_cost_inr := pyRound 2 total_cost
    gross_revenue_inr := pyRound 2 gross_revenue
    net_profit_inr := pyRound 2 net_profit
    profit_margin_pct := pyRound 1 profit_margin_pct
    roi_pct := pyRound 1 roi_pct }

/-- The fields of the flood engine result dict that `aggregate_analysis`
reads (`flood_data.get(...)`; the real flood engine always provides them). -/
structure FloodData where
  annual_damage_avoided_inr_per_m2 : ℚ
  delta_runoff_mm : ℚ
  flood_risk_score : ℚ
deriving DecidableEq, Repr

/-- Composite-score reference benchmarks (`aggregate_analysis` step D). -/
def ECO_REF : ℚ := 5000000
def FIN_REF : ℚ := 50000000

/-- `eco_pts  = min(1.0, total_env_npv / ECO_REF) * 40`. -/
def eco_pts (total_env_npv : ℚ) : ℚ := min 1 (total_env_npv / ECO_REF) * 40

/-- `fin_pts  = min(1.0, max(0, net_profit) / FIN_REF) * 40`. -/
def fin_pts (net_profit : ℚ) : ℚ := min 1 (max 0 net_profit / FIN_REF) * 40

/-- `risk_pts = (1 - flood_risk) * 20`. -/
def risk_pts (flood_risk : ℚ) : ℚ := (1 - flood_risk) * 20

/-- `composite_score = round(eco_pts + fin_pts + risk_pts, 1)`
(`aggregate_analysis` step D; note: no final clamp is applied). -/
def composite_score (total_env_npv net_profit flood_risk : ℚ) : ℚ :=
  pyRound 1 (eco_pts total_env_npv + fin_pts net_profit + risk_pts flood_risk)

/-- `aggregate_analysis` step A: total environmental NPV. -/
def total_env_npv (area_m2 : ℚ) (fd : FloodData)
    (solar_npv_25yr carbon_npv_30yr carbon_stored_value : ℚ) : ℚ :=
  agg_npv_annuity (fd.annual_damage_avoided_inr_per_m2 * area_m2) 30 ECO_DR
    + solar_npv_25yr + (carbon_npv_30yr + carbon_stored_value)

/-- The `composite_score` field of the `aggregate_analysis` result, as a
function of the parcel area, the flood/solar/carbon engine outputs it reads,
and the (already normalized) intent. -/
def aggregate_composite_score (area_m2 : ℚ) (fd : FloodData)
    (solar_npv_25yr carbon_npv_30yr carbon_stored_value : ℚ)
    (intent : Intent) : ℚ :=
  let env := total_env_npv area_m2 fd solar_npv_25yr carbon_npv_30yr
    carbon_stored_value
  let dev := development_cost_breakdown area_m2 intent fd.delta_runoff_mm
    fd.flood_risk_score
  composite_score env dev.net_profit_inr fd.flood_risk_score

/-! ### Concrete inputs used in witnesses and counterexamples -/

/-- A fully urban land-cover distribution. -/
def distUrbanOnly : Distribution
  | Cat.urban => 1
  | _ => 0

/-- A fully open-land distribution. -/
def distOpenLandOnly : Distribution
  | Cat.open_land => 1
  | _ => 0

/-! ## Theorems -/

/-! ### Generic facts about `pyRound` -/

theorem pyRound_mono {α : Type} [LinearOrderedField α] [FloorRing α] (d : ℕ)
    {x y : α} (h : x ≤ y) : pyRound d x ≤ pyRound d y := by
  unfold pyRound
  have hp : (0 : α) < (10 : α) ^ d := by positivity
  have h2 : round (x * (10 : α) ^ d) ≤ round (y * (10 : α) ^ d) := by
    rw [round_eq, round_eq]
    exact Int.floor_mono (by linarith [mul_le_mul_of_nonneg_right h hp.le])
  exact div_le_div_of_nonneg_right (by exact_mod_cast h2) hp.le

theorem pyRound_intCast {α : Type} [LinearOrderedField α] [FloorRing α] (d : ℕ)
    (z : ℤ) : pyRound d (z : α) = z := by
  unfold pyRound
  have hp : (0 : α) < (10 : α) ^ d := by positivity
  have : ((z : α) * (10 : α) ^ d) = ((z * (10:ℤ) ^ d : ℤ) : α) := by push_cast; ring
  rw [this, round_intCast]
  push_cast
  field_simp

theorem pyRound_nonneg {α : Type} [LinearOrderedField α] [FloorRing α] (d : ℕ)
    {x : α} (h : 0 ≤ x) : 0 ≤ pyRound d x := by
  have h2 := pyRound_mono d h
  rw [show (0:α) = ((0:ℤ):α) by norm_num, pyRound_intCast d 0] at h2
  exact_mod_cast h2


theorem pyRound_zero {α : Type} [LinearOrderedField α] [FloorRing α] (d : ℕ) :
    pyRound d (0 : α) = 0 := by
  have h := pyRound_intCast (α := α) d 0
  simpa using h

/-- Unfolded form of `calculate_runoff_mm`. -/
theorem calculate_runoff_mm_eq (P_mm CN : ℚ) :
    calculate_runoff_mm P_mm CN =
      if CN ≤ 0 ∨ CN ≥ 100 ∨ P_mm ≤ 0 then 0
      else if P_mm ≤ 2/10 * (25400 / CN - 254) then 0
      else (P_mm - 2/10 * (25400 / CN - 254)) ^ 2
        / (P_mm + 8/10 * (25400 / CN - 254)) := rfl

/-- C10: `calculate_runoff_mm` is total and bounded: it returns 0 on the
degenerate inputs (`CN ≤ 0`, `CN ≥ 100`, `P ≤ 0`), and otherwise returns a
runoff depth `Q` with `0 ≤ Q ≤ P`. -/
theorem calculate_runoff_mm_total_bounded (P_mm CN : ℚ) :
    (CN ≤ 0 ∨ CN ≥ 100 ∨ P_mm ≤ 0 → calculate_runoff_mm P_mm CN = 0) ∧
    (0 < CN → CN < 100 → 0 < P_mm →
      0 ≤ calculate_runoff_mm P_mm CN ∧ calculate_runoff_mm P_mm CN ≤ P_mm) := by
  constructor
  · intro h
    rw [calculate_runoff_mm_eq, if_pos h]
  · intro h1 h2 h3
    rw [calculate_runoff_mm_eq,
      if_neg (by push_neg; exact ⟨h1, h2, h3⟩)]
    have hS : 0 < 25400 / CN - 254 := by
      have h4 : 254 < 25400 / CN := by
        rw [lt_div_iff₀ h1]; nlinarith
      linarith
    by_cases hP : P_mm ≤ 2/10 * (25400 / CN - 254)
    · rw [if_pos hP]
      exact ⟨le_refl 0, h3.le⟩
    · rw [if_neg hP]
      push_neg at hP
      have hden : 0 < P_mm + 8/10 * (25400 / CN - 254) := by linarith
      constructor
      · positivity
      · rw [div_le_iff₀ hden]
        nlinarith [hS, hP, h3]

/-- Witness for C10 at `P = 100`, `CN = 70`. -/
theorem calculate_runoff_mm_total_bounded_witness :
    0 ≤ calculate_runoff_mm 100 70 ∧ calculate_runoff_mm 100 70 ≤ 100 :=
  (calculate_runoff_mm_total_bounded 100 70).2 (by norm_num) (by norm_num)
    (by norm_num)

/-- C5: the `delta_runoff_mm` field of `run_flood_analysis` is always ≥ 0;
when the developed-cover runoff does not exceed the current-cover runoff the
delta is clamped to 0. -/
theorem delta_runoff_mm_nonneg (annual_p : ℚ) (dist : Distribution)
    (amc_5day slope : ℚ) :
    0 ≤ delta_runoff_mm annual_p dist amc_5day slope ∧
    (flood_q_dev annual_p amc_5day slope ≤
        flood_q_curr annual_p dist amc_5day slope →
      delta_runoff_mm annual_p dist amc_5day slope = 0) := by
  constructor
  · exact pyRound_nonneg 2 (le_max_left 0 _)
  · intro h
    unfold delta_runoff_mm flood_delta_q
    rw [max_eq_left (by linarith), pyRound_zero]

/-- Witness for C5: a fully urban parcel, where current and developed CN are
both 92 and the runoff delta is exactly 0. -/
theorem delta_runoff_mm_nonneg_witness :
    0 ≤ delta_runoff_mm 1000 distUrbanOnly 45 2 ∧
    delta_runoff_mm 1000 distUrbanOnly 45 2 = 0 := by
  have h := delta_runoff_mm_nonneg 1000 distUrbanOnly 45 2
  refine ⟨h.1, h.2 (le_of_eq ?_)⟩
  norm_num [flood_q_dev, flood_q_curr, flood_cn_current, flood_cn_developed,
    flood_base_cn, Cat.all, CN_TABLE, distUrbanOnly]

/-- C6: both `npv_annuity` (carbon engine) and `_npv_annuity` (aggregator)
return `A·n` at rate 0 with positive value and tenure, return 0 whenever
`A ≤ 0` or `n ≤ 0`, and otherwise return the level-annuity present value
`A·(1 − (1+r)^−n)/r`. -/
theorem npv_annuity_spec (A : ℚ) (n : ℤ) (r : ℚ) :
    (r = 0 → 0 < n → 0 < A →
      npv_annuity A n r = A * n ∧ agg_npv_annuity A n r = A * n) ∧
    (A ≤ 0 ∨ n ≤ 0 →
      npv_annuity A n r = 0 ∧ agg_npv_annuity A n r = 0) ∧
    (0 < A → 0 < n → r ≠ 0 →
      npv_annuity A n r = A * (1 - (1 + r) ^ (-n)) / r ∧
      agg_npv_annuity A n r = A * (1 - (1 + r) ^ (-n)) / r) := by
  refine ⟨?_, ?_, ?_⟩
  · intro hr hn hA
    unfold npv_annuity agg_npv_annuity
    rw [if_neg (by push_neg; exact ⟨by linarith, by linarith⟩), if_pos hr]
    exact ⟨rfl, rfl⟩
  · intro h
    unfold npv_annuity agg_npv_annuity
    rw [if_pos h]
    exact ⟨rfl, rfl⟩
  · intro hA hn hr
    unfold npv_annuity agg_npv_annuity
    rw [if_neg (by push_neg; exact ⟨by linarith, by linarith⟩), if_neg hr]
    exact ⟨rfl, rfl⟩

/-- Witness for C6: rate 0, 3 years, annual value 5 gives 15 in both
engines; a non-positive annual value gives 0. -/
theorem npv_annuity_spec_witness :
    (npv_annuity 5 3 0 = 15 ∧ agg_npv_annuity 5 3 0 = 15) ∧
    (npv_annuity (-2) 7 (1/10) = 0 ∧ agg_npv_annuity (-2) 7 (1/10) = 0) := by
  constructor
  · have h := (npv_annuity_spec 5 3 0).1 rfl (by norm_num) (by norm_num)
    constructor
    · rw [h.1]; norm_num
    · rw [h.2]; norm_num
  · exact (npv_annuity_spec (-2) 7 (1/10)).2.1 (Or.inl (by norm_num))

theorem pyRound_le_one {α : Type} [LinearOrderedField α] [FloorRing α] (d : ℕ)
    {x : α} (h : x ≤ 1) : pyRound d x ≤ 1 := by
  have h2 := pyRound_mono d h
  rw [show (1:α) = ((1:ℤ):α) by norm_num, pyRound_intCast d 1] at h2
  exact_mod_cast h2

/-- C4: for any elevation and non-negative annual rainfall and slope, the
`flood_risk_score` of `run_flood_analysis` lies in `[0,1]`, and `risk_label`
is exactly `"High"` above 0.7, `"Moderate"` above 0.35 and up to 0.7, and
`"Low"` up to 0.35. -/
theorem flood_risk_score_spec (elevation annual_p slope : ℝ) :
    (0 ≤ annual_p → 0 ≤ slope →
      0 ≤ flood_risk_score elevation annual_p slope ∧
      flood_risk_score elevation annual_p slope ≤ 1) ∧
    (risk_label elevation annual_p slope = "High" ↔
      7/10 < flood_risk_score elevation annual_p slope) ∧
    (risk_label elevation annual_p slope = "Moderate" ↔
      35/100 < flood_risk_score elevation annual_p slope ∧
      flood_risk_score elevation annual_p slope ≤ 7/10) ∧
    (risk_label elevation annual_p slope = "Low" ↔
      flood_risk_score elevation annual_p slope ≤ 35/100) := by
  have h1 : elev_risk elevation ≤ 1 := min_le_left _ _
  have h2 : rain_risk annual_p ≤ 1 := min_le_left _ _
  have h3 : slope_risk slope ≤ 1 := min_le_left _ _
  have hcomp_le : composite_risk elevation annual_p slope ≤ 1 :=
    pyRound_le_one 4 (by linarith)
  have hscore : flood_risk_score elevation annual_p slope =
      composite_risk elevation annual_p slope := min_eq_right hcomp_le
  refine ⟨?_, ?_, ?_, ?_⟩
  · intro hp hs
    have e1 : 0 ≤ elev_risk elevation :=
      le_min (by norm_num) (Real.exp_pos _).le
    have e2 : 0 ≤ rain_risk annual_p := le_min (by norm_num) (by positivity)
    have e3 : 0 ≤ slope_risk slope := le_min (by norm_num) (by positivity)
    refine ⟨?_, min_le_left _ _⟩
    rw [hscore]
    exact pyRound_nonneg 4 (by linarith)
  · rw [hscore]; unfold risk_label
    split_ifs with hH hM
    · exact iff_of_true rfl hH
    · exact iff_of_false (by decide) hH
    · exact iff_of_false (by decide) hH
  · rw [hscore]; unfold risk_label
    split_ifs with hH hM
    · exact iff_of_false (by decide) (fun h => absurd hH (not_lt.mpr h.2))
    · exact iff_of_true rfl ⟨hM, le_of_not_lt hH⟩
    · exact iff_of_false (by decide) (fun h => hM h.1)
  · rw [hscore]; unfold risk_label
    split_ifs with hH hM
    · exact iff_of_false (by decide) (by push_neg; linarith)
    · exact iff_of_false (by decide) (fun h => absurd hM (not_lt.mpr h))
    · exact iff_of_true rfl (le_of_not_lt hM)

/-- Witness for C4 at elevation 10 m, rainfall 1200 mm, slope 2 %. -/
theorem flood_risk_score_spec_witness :
    0 ≤ flood_risk_score 10 1200 2 ∧ flood_risk_score 10 1200 2 ≤ 1 :=
  (flood_risk_score_spec 10 1200 2).1 (by norm_num) (by norm_num)

/-- C9: the Western Ghats sample (50 ha, forest 0.85 / wetland 0.10 /
water 0.05, 30-yr tenure): `run_carbon_analysis` computes stored CO₂ within
3 t of 27,974 t and annual sequestration within 2 t of 999 t CO₂/yr (the
exact values are 27,976.6667 t and 1,000.0833 t). -/
theorem carbon_sample_western_ghats :
    |stored_co2_tons 500000
        [("forest", 85/100), ("wetland", 1/10), ("water", 5/100)] - 27974| ≤ 3 ∧
    |annual_sequestration_co2_tons 500000
        [("forest", 85/100), ("wetland", 1/10), ("water", 5/100)] - 999| ≤ 2 := by
  have hclean : carbon_clean_distribution
      [("forest", 85/100), ("wetland", 1/10), ("water", 5/100)] =
      [(Cat.forest, 85/100), (Cat.wetland, 1/10), (Cat.water, 5/100)] := by
    norm_num [carbon_clean_distribution, isclose_one, knownCat, List.filterMap]
    exact List.cons_ne_nil _ _
  constructor
  · simp only [stored_co2_tons, carbon_total_stored_c]
    rw [hclean]
    norm_num [carbon_validated_area, CARBON_STOCKS_TC_HA, HA_PER_M2, C_TO_CO2,
      pyRound, round_eq]
    rw [abs_le]
    constructor <;> norm_num
  · simp only [annual_sequestration_co2_tons, carbon_total_annual_flux]
    rw [hclean]
    norm_num [carbon_validated_area, CARBON_FLUX_TC_HA_YR, HA_PER_M2, C_TO_CO2,
      pyRound, round_eq]
    rw [abs_le]
    constructor <;> norm_num

/-- Dividing every value of an association list by `s` divides its value sum
by `s`. -/
theorem rawdist_sum_map_div (l : RawDist) (s : ℚ) :
    (((l.map (fun kv => (kv.1, kv.2 / s))).map (fun kv => kv.2)).sum : ℚ)
      = ((l.map (fun kv => kv.2)).sum) / s := by
  induction l with
  | nil => simp
  | cons a t ih =>
      simp only [List.map_cons, List.sum_cons] at *
      rw [ih, add_div]

/-- C8: the input validation of `run_carbon_analysis` never fails: the area
is forced positive (0.1 when ≤ 0, unchanged otherwise); a weight sum not
within tolerance of 1 is renormalized by a positive sum (after which the
weights sum to exactly 1) with unknown keys then dropped; a non-positive
weight sum, or a distribution with no recognized key, falls back to the
neutral `{"open_land": 1.0}`; the cleaned distribution is never empty. -/
theorem run_carbon_analysis_validation (area_m2 : ℚ) (dist : RawDist) :
    0 < carbon_validated_area area_m2 ∧
    (area_m2 ≤ 0 → carbon_validated_area area_m2 = 1/10) ∧
    (0 < area_m2 → carbon_validated_area area_m2 = area_m2) ∧
    carbon_clean_distribution dist ≠ [] ∧
    (¬ isclose_one ((dist.map (fun kv => kv.2)).sum) →
      0 < (dist.map (fun kv => kv.2)).sum →
      (((dist.map (fun kv =>
          (kv.1, kv.2 / (dist.map (fun kv2 => kv2.2)).sum))).map
            (fun kv => kv.2)).sum = 1 ∧
       carbon_clean_distribution dist =
        (let renorm : RawDist := dist.map (fun kv =>
            (kv.1, kv.2 / (dist.map (fun kv2 => kv2.2)).sum))
         let clean : List (Cat × ℚ) := renorm.filterMap
            (fun kv => (knownCat kv.1).map (fun c => (c, kv.2)))
         if clean = [] then [(Cat.open_land, 1)] else clean))) ∧
    (¬ isclose_one ((dist.map (fun kv => kv.2)).sum) →
      (dist.map (fun kv => kv.2)).sum ≤ 0 →
      carbon_clean_distribution dist = [(Cat.open_land, 1)]) ∧
    (isclose_one ((dist.map (fun kv => kv.2)).sum) →
      carbon_clean_distribution dist =
        (let clean : List (Cat × ℚ) := dist.filterMap
            (fun kv => (knownCat kv.1).map (fun c => (c, kv.2)))
         if clean = [] then [(Cat.open_land, 1)] else clean)) := by
  refine ⟨?_, ?_, ?_, ?_, ?_, ?_, ?_⟩
  · unfold carbon_validated_area
    split_ifs with h
    · norm_num
    · linarith [not_le.mp h]
  · intro h; unfold carbon_validated_area; rw [if_pos h]
  · intro h; unfold carbon_validated_area; rw [if_neg (not_le.mpr h)]
  · simp only [carbon_clean_distribution]
    split_ifs <;> first | exact List.cons_ne_nil _ _ | assumption
  · intro hni hpos
    constructor
    · rw [rawdist_sum_map_div]
      exact div_self (ne_of_gt hpos)
    · simp only [carbon_clean_distribution]
      rw [if_neg hni, if_pos hpos]
  · intro hni hnonpos
    simp only [carbon_clean_distribution]
    rw [if_neg hni, if_neg (not_lt.mpr hnonpos)]
    norm_num [knownCat, List.filterMap]
  · intro hc
    simp only [carbon_clean_distribution]
    rw [if_pos hc]

/-- Witness for C8: negative area and the distribution
`{"forest": 3, "bogus": 1}` (sum 4): the area is clamped to 0.1 and the
distribution renormalizes to `forest ↦ 3/4` with the unknown key dropped. -/
theorem run_carbon_analysis_validation_witness :
    carbon_validated_area (-5) = 1/10 ∧
    carbon_clean_distribution [("forest", 3), ("bogus", 1)] =
      [(Cat.forest, 3/4)] := by
  have h := run_carbon_analysis_validation (-5) [("forest", 3), ("bogus", 1)]
  refine ⟨h.2.1 (by norm_num), ?_⟩
  have h2 := (h.2.2.2.2.1 (by norm_num [isclose_one]) (by norm_num)).2
  have hf : knownCat "forest" = some Cat.forest := rfl
  have hb : knownCat "bogus" = none := rfl
  rw [h2]
  norm_num [List.filterMap, hf, hb]

/-- At a non-negative discount rate, `_npv_annuity` never returns a negative
present value. -/
theorem agg_npv_annuity_nonneg (A : ℚ) (n : ℤ) (r : ℚ) (hr : 0 ≤ r) :
    0 ≤ agg_npv_annuity A n r := by
  unfold agg_npv_annuity
  split_ifs with h1 h2
  · exact le_refl 0
  · push_neg at h1
    have hn : (0:ℚ) < (n:ℚ) := by exact_mod_cast h1.2
    have hA := h1.1
    positivity
  · push_neg at h1
    have hA := h1.1
    have hrpos : 0 < r := lt_of_le_of_ne hr (Ne.symm h2)
    have hzp : (1 + r) ^ (-n) ≤ 1 :=
      zpow_le_one_of_nonpos₀ (by linarith) (by omega)
    have : 0 ≤ 1 - (1 + r) ^ (-n) := by linarith
    positivity

/-- C7: the composite score of `aggregate_analysis` is monotonically
non-decreasing in the total environmental NPV and in the net development
profit (flood risk fixed), and monotonically non-increasing in the flood
risk score (NPV and profit fixed). -/
theorem composite_score_monotone :
    (∀ e1 e2 p f : ℚ, e1 ≤ e2 →
      composite_score e1 p f ≤ composite_score e2 p f) ∧
    (∀ e p1 p2 f : ℚ, p1 ≤ p2 →
      composite_score e p1 f ≤ composite_score e p2 f) ∧
    (∀ e p f1 f2 : ℚ, f1 ≤ f2 →
      composite_score e p f2 ≤ composite_score e p f1) := by
  refine ⟨?_, ?_, ?_⟩
  · intro e1 e2 p f h
    unfold composite_score
    apply pyRound_mono
    have h1 : min 1 (e1 / ECO_REF) ≤ min 1 (e2 / ECO_REF) := by
      apply min_le_min le_rfl
      unfold ECO_REF
      linarith
    unfold eco_pts
    linarith
  · intro e p1 p2 f h
    unfold composite_score
    apply pyRound_mono
    have h0 : max 0 p1 ≤ max 0 p2 := max_le_max le_rfl h
    have h1 : min 1 (max 0 p1 / FIN_REF) ≤ min 1 (max 0 p2 / FIN_REF) := by
      apply min_le_min le_rfl
      unfold FIN_REF
      linarith
    unfold fin_pts
    linarith
  · intro e p f1 f2 h
    unfold composite_score
    apply pyRound_mono
    unfold risk_pts
    linarith

/-- Witness for C7: raising the environmental NPV from 0 to ₹10 L (flood
risk ½, profit 0) does not decrease the score, and raising flood risk from
0.2 to 0.5 does not increase it. -/
theorem composite_score_monotone_witness :
    composite_score 0 0 (1/2) ≤ composite_score 1000000 0 (1/2) ∧
    composite_score 0 0 (1/2) ≤ composite_score 0 0 (2/10) :=
  ⟨composite_score_monotone.1 0 1000000 0 (1/2) (by norm_num),
   composite_score_monotone.2.2 0 0 (2/10) (1/2) (by norm_num)⟩

/-- Counterexample to C1: `aggregate_analysis` applies no clamp to the
composite score.  A solar NPV of −₹10⁹ on a 1000 m² solar-intent parcel
(flood risk ½, all other engine values 0) drives `eco_pts` to −8000 and the
composite score to −7990, far below the claimed range [0,100]. -/
theorem aggregate_composite_score_not_clamped :
    aggregate_composite_score 1000
      { annual_damage_avoided_inr_per_m2 := 0
        delta_runoff_mm := 0
        flood_risk_score := 1/2 }
      (-1000000000) 0 0 Intent.solar < 0 := by
  norm_num [aggregate_composite_score, total_env_npv, agg_npv_annuity,
    development_cost_breakdown, composite_score, eco_pts, fin_pts, risk_pts,
    ECO_REF, FIN_REF, ECO_DR, LAND_COST_INR_M2, CONSTRUCTION_COST_INR_M2,
    FSI, SALE_PRICE_INR_M2, INFRA_OVERHEADS, DRAINAGE_COST_INR_M3_RUNOFF,
    pyRound, round_eq]

/-- C1 (amended): the composite score is `eco_pts + fin_pts + risk_pts`
with `eco_pts` capped above (but not below) at 40, `fin_pts` in [0,40] and
`risk_pts = (1 − flood_risk)·20`; there is no final clamp, and the total
lies in [0,100] provided the environmental NPV inputs are non-negative and
the flood risk score is within [0,1]. -/
theorem aggregate_composite_score_range (area_m2 : ℚ) (fd : FloodData)
    (solar_npv carbon_npv carbon_stored : ℚ) (intent : Intent)
    (hs : 0 ≤ solar_npv) (hc : 0 ≤ carbon_npv) (hcs : 0 ≤ carbon_stored)
    (hf0 : 0 ≤ fd.flood_risk_score) (hf1 : fd.flood_risk_score ≤ 1) :
    0 ≤ aggregate_composite_score area_m2 fd solar_npv carbon_npv
        carbon_stored intent ∧
    aggregate_composite_score area_m2 fd solar_npv carbon_npv
        carbon_stored intent ≤ 100 := by
  have henv : 0 ≤ total_env_npv area_m2 fd solar_npv carbon_npv carbon_stored := by
    unfold total_env_npv
    have h1 := agg_npv_annuity_nonneg
      (fd.annual_damage_avoided_inr_per_m2 * area_m2) 30 ECO_DR
      (by unfold ECO_DR; norm_num)
    linarith
  set env := total_env_npv area_m2 fd solar_npv carbon_npv carbon_stored with henvdef
  have heco0 : 0 ≤ eco_pts env := by
    unfold eco_pts ECO_REF
    have : (0:ℚ) ≤ env / 5000000 := by positivity
    have := le_min (show (0:ℚ) ≤ 1 by norm_num) this
    linarith
  have heco1 : eco_pts env ≤ 40 := by
    unfold eco_pts
    have := min_le_left 1 (env / ECO_REF)
    linarith
  have hfin0 : ∀ p : ℚ, 0 ≤ fin_pts p := by
    intro p
    unfold fin_pts FIN_REF
    have h0 : (0:ℚ) ≤ max 0 p / 50000000 := by positivity
    have := le_min (show (0:ℚ) ≤ 1 by norm_num) h0
    linarith
  have hfin1 : ∀ p : ℚ, fin_pts p ≤ 40 := by
    intro p
    unfold fin_pts
    have := min_le_left 1 (max 0 p / FIN_REF)
    linarith
  have hrisk0 : 0 ≤ risk_pts fd.flood_risk_score := by
    unfold risk_pts; linarith
  have hrisk1 : risk_pts fd.flood_risk_score ≤ 20 := by
    unfold risk_pts; linarith
  have hfinlo := hfin0 (development_cost_breakdown area_m2 intent
    fd.delta_runoff_mm fd.flood_risk_score).net_profit_inr
  have hfinhi := hfin1 (development_cost_breakdown area_m2 intent
    fd.delta_runoff_mm fd.flood_risk_score).net_profit_inr
  simp only [aggregate_composite_score]
  rw [← henvdef]
  unfold composite_score
  constructor
  · exact pyRound_nonneg 1 (by linarith)
  · have hsum : eco_pts env + fin_pts
        (development_cost_breakdown area_m2 intent fd.delta_runoff_mm
          fd.flood_risk_score).net_profit_inr +
        risk_pts fd.flood_risk_score ≤ 100 := by linarith
    have h2 := pyRound_mono 1 hsum
    rw [show (100:ℚ) = ((100:ℤ):ℚ) by norm_num, pyRound_intCast 1 100] at h2
    exact_mod_cast h2

/-- Witness for C1 (amended) on a zero-valued parcel with flood risk ½. -/
theorem aggregate_composite_score_range_witness :
    0 ≤ aggregate_composite_score 0
      { annual_damage_avoided_inr_per_m2 := 0
        delta_runoff_mm := 0
        flood_risk_score := 1/2 } 0 0 0 Intent.mixed ∧
    aggregate_composite_score 0
      { annual_damage_avoided_inr_per_m2 := 0
        delta_runoff_mm := 0
        flood_risk_score := 1/2 } 0 0 0 Intent.mixed ≤ 100 :=
  aggregate_composite_score_range 0
    { annual_damage_avoided_inr_per_m2 := 0
      delta_runoff_mm := 0
      flood_risk_score := 1/2 } 0 0 0 Intent.mixed
    (by norm_num) (by norm_num) (by norm_num) (by norm_num) (by norm_num)

/-- C2 (amended): when the computed panel count is 0, `run_solar_analysis`
returns (without any division) the degenerate dict containing only the GHI,
`panel_count = 0` and `npv_25yr_inr = 0`; every other field — capacity,
generation, revenue, capex, opex, payback, IRR, LCOE — is omitted (`none`),
not set to zero. -/
theorem run_solar_analysis_zero_panels (ghi temp area_m2 : ℚ)
    (dist : Distribution) (h : solar_panel_count area_m2 dist = 0) :
    run_solar_analysis ghi temp area_m2 dist = some
      { avg_daily_ghi_kwh_m2 := ghi
        avg_temp_c := none
        usable_area_m2 := none
        panel_count := 0
        installed_capacity_kwp := none
        annual_generation_kwh := none
        annual_revenue_inr := none
        total_investment_inr := none
        annual_opex_inr := none
        payback_years := none
        npv_25yr_inr := 0
        irr_pct := none
        lcoe_inr_kwh := none
        temp_derate_factor := none } := by
  simp only [run_solar_analysis]
  rw [if_pos h]

/-- Witness for C2 (amended): a 1 m² open-land parcel has panel count 0 and
gets the degenerate result. -/
theorem run_solar_analysis_zero_panels_witness :
    run_solar_analysis 5 25 1 distOpenLandOnly = some
      { avg_daily_ghi_kwh_m2 := 5
        avg_temp_c := none
        usable_area_m2 := none
        panel_count := 0
        installed_capacity_kwp := none
        annual_generation_kwh := none
        annual_revenue_inr := none
        total_investment_inr := none
        annual_opex_inr := none
        payback_years := none
        npv_25yr_inr := 0
        irr_pct := none
        lcoe_inr_kwh := none
        temp_derate_factor := none } :=
  run_solar_analysis_zero_panels 5 25 1 distOpenLandOnly (by
    norm_num [solar_panel_count, solar_usable_fraction, Cat.all,
      SOLAR_ELIGIBLE_FRACTION, distOpenLandOnly, PANEL_AREA_M2])

/-- Counterexample to C2: at panel count 0 the call succeeds but the
`annual_generation_kwh` key is absent from the returned dict (`none`), not
equal to zero as claimed. -/
theorem run_solar_analysis_zero_panels_omits_fields :
    (run_solar_analysis 5 25 1 distOpenLandOnly).map
      (fun r => r.annual_generation_kwh) = some none ∧
    (none : Option ℚ) ≠ some 0 := by
  have h0 : solar_panel_count 1 distOpenLandOnly = 0 := by
    norm_num [solar_panel_count, solar_usable_fraction, Cat.all,
      SOLAR_ELIGIBLE_FRACTION, distOpenLandOnly, PANEL_AREA_M2]
  constructor
  · simp only [run_solar_analysis]
    rw [if_pos h0]
    rfl
  · simp

/-- C3 (amended): for panel count > 0 the `payback_years` field is computed
unconditionally as `round(total_capex / (year-1 revenue − year-1 opex), 1)`:
a zero year-1 net cash flow raises `ZeroDivisionError` (modelled `none`
result), and a negative one yields a negative payback — the field is never
`null`. -/
theorem run_solar_analysis_payback_unconditional (ghi temp area_m2 : ℚ)
    (dist : Distribution) (h : solar_panel_count area_m2 dist ≠ 0) :
    (solar_year1_cash ghi temp area_m2 dist = 0 →
      run_solar_analysis ghi temp area_m2 dist = none) ∧
    (solar_year1_cash ghi temp area_m2 dist ≠ 0 →
      (run_solar_analysis ghi temp area_m2 dist).bind
          (fun r => r.payback_years)
        = some (pyRound 1 (solar_total_capex area_m2 dist /
            solar_year1_cash ghi temp area_m2 dist))) := by
  constructor
  · intro hc
    simp only [run_solar_analysis]
    rw [if_neg h, if_pos hc]
  · intro hc
    simp only [run_solar_analysis]
    rw [if_neg h, if_neg hc]
    rfl

/-- Witness for C3 (amended): 10 m² of open land under zero irradiance has
4 panels and a negative year-1 cash flow; the payback field is still
computed (as a finite number). -/
theorem run_solar_analysis_payback_unconditional_witness :
    (run_solar_analysis 0 25 10 distOpenLandOnly).bind
        (fun r => r.payback_years)
      = some (pyRound 1 (solar_total_capex 10 distOpenLandOnly /
          solar_year1_cash 0 25 10 distOpenLandOnly)) :=
  (run_solar_analysis_payback_unconditional 0 25 10 distOpenLandOnly (by
    norm_num [solar_panel_count, solar_usable_fraction, Cat.all,
      SOLAR_ELIGIBLE_FRACTION, distOpenLandOnly, PANEL_AREA_M2])).2 (by
    norm_num [solar_year1_cash, solar_annual_gen_kwh, solar_opex_y1,
      solar_total_capex, solar_capacity_kwp, solar_temp_derate,
      solar_panel_count, solar_usable_fraction, Cat.all,
      SOLAR_ELIGIBLE_FRACTION, distOpenLandOnly, PANEL_AREA_M2,
      PANEL_EFFICIENCY, SYSTEM_LOSS_FACTOR, TEMP_COEFF, NOCT_OFFSET,
      CAPEX_PER_W_INR, GST_RATE, OPEX_RATE, GRID_TARIFF_INR_KWH])

/-- Counterexample to C3: with 4 panels and zero irradiance the year-1 net
cash flow is −₹665.28 (non-positive), yet `payback_years` is `-100.0`, not
null: the code divides unconditionally and returns a negative payback. -/
theorem run_solar_analysis_negative_payback :
    solar_year1_cash 0 25 10 distOpenLandOnly < 0 ∧
    (run_solar_analysis 0 25 10 distOpenLandOnly).bind
      (fun r => r.payback_years) = some (-100) := by
  have h4 : solar_panel_count 10 distOpenLandOnly = 4 := by
    norm_num [solar_panel_count, solar_usable_fraction, Cat.all,
      SOLAR_ELIGIBLE_FRACTION, distOpenLandOnly, PANEL_AREA_M2]
  have hcash : solar_year1_cash 0 25 10 distOpenLandOnly = -(66528/100) := by
    norm_num [solar_year1_cash, solar_annual_gen_kwh, solar_opex_y1,
      solar_total_capex, solar_capacity_kwp, solar_temp_derate, h4,
      PANEL_AREA_M2, PANEL_EFFICIENCY, SYSTEM_LOSS_FACTOR, TEMP_COEFF,
      NOCT_OFFSET, CAPEX_PER_W_INR, GST_RATE, OPEX_RATE, GRID_TARIFF_INR_KWH]
  have hcapex : solar_total_capex 10 distOpenLandOnly = 66528 := by
    norm_num [solar_total_capex, solar_capacity_kwp, h4, PANEL_AREA_M2,
      PANEL_EFFICIENCY, CAPEX_PER_W_INR, GST_RATE]
  constructor
  · rw [hcash]; norm_num
  · simp only [run_solar_analysis]
    rw [if_neg (by rw [h4]; norm_num), if_neg (by rw [hcash]; norm_num)]
    simp only [Option.some_bind]
    rw [hcash, hcapex]
    norm_num [pyRound, round_eq]
